import Mathlib

/-!
Shallow embedding of the NetworkDevice class from networkdevice.py
(DNAC-Python-Wrapper).  HTTP transport is modelled as a function from
requests to responses; response bodies are modelled as already-parsed
JSON values.  Python control flow (return of a value, return of None
after a printed message, raised exception) is made explicit in the
result types.
-/

/-- A JSON value, as produced by json.loads. -/
inductive Json where
  | null : Json
  | bool (b : Bool) : Json
  | num (n : Int) : Json
  | str (s : String) : Json
  | arr (elems : List Json) : Json
  | obj (fields : List (String × Json)) : Json

/-- Python runtime errors that the embedded code can raise. -/
inductive PyError where
  | keyError (key : String)
  | typeError
  | attributeError (attr : String)
deriving DecidableEq, Repr

/-- First binding of a key in an association list, as in a Python dict
whose keys are unique. -/
def lookupField : List (String × Json) → String → Option Json
  | [], _ => Option.none
  | (k, v) :: rest, key => if k = key then some v else lookupField rest key

/-- Python subscript d[k] on a parsed JSON value: a missing key raises
KeyError, subscripting a non-object by a string raises TypeError. -/
def Json.subscript (j : Json) (key : String) : Except PyError Json :=
  match j with
  | .obj fields =>
      match lookupField fields key with
      | some v => .ok v
      | Option.none => .error (.keyError key)
  | _ => .error .typeError

/-- Lexicographic comparison of character sequences by code point:
the first differing position decides, and a proper prefix is smaller.
This is the comparison Python applies to str operands of the relational
operators. -/
def charsLe : List Char → List Char → Bool
  | [], _ => true
  | _ :: _, [] => false
  | c :: cs, d :: ds => if c = d then charsLe cs ds else decide (c < d)

/-- The Python expression a <= b on two str values. -/
def pyStrLe (a b : String) : Bool :=
  charsLe a.data b.data

/-- The Dnac object the constructor receives (external collaborator).
Modelled from the spec: the Dnac class is not under src/; networkdevice.py
reads dnac.version, dnac.url and dnac.hdrs, and the spec (section 3,
ControllerSession) describes it as holding a base URL, transport headers
and a version string. -/
structure Dnac where
  version : String
  url : String
  hdrs : List (String × String)
deriving DecidableEq, Repr

/-- The fields of a constructed NetworkDevice instance.
Modelled from the spec: the DnacApi base class is not under src/; the
spec (section 9, inheritance note) says it supplies the fields dnac,
name, respath, filter, verify and timeout, stored from the constructor
arguments dnac, name, resourcePath, requestFilter, verify and timeout
that networkdevice.py line 92 passes to it. -/
structure NetworkDevice where
  dnac : Dnac
  name : String
  respath : String
  filter : String
  verify : Bool
  timeout : Nat
deriving DecidableEq, Repr

/-- Outcome of running NetworkDevice.__init__. -/
inductive InitResult where
  | ok (nd : NetworkDevice)
  | raised (e : PyError)
deriving DecidableEq, Repr

/-- What __init__ printed to stdout together with how it ended. -/
structure InitOutcome where
  printed : List String
  result : InitResult
deriving DecidableEq, Repr

/-- NetworkDevice.__init__, networkdevice.py lines 39-98.
If dnac.version <= "1.2.8" the private field __respath is set and the
base class stores all fields.  Otherwise the method only prints a
message and leaves __respath unset; the read of self.__respath on
line 94 (mangled name _NetworkDevice__respath) then raises
AttributeError, so no instance is produced. -/
def NetworkDevice.init (dnac : Dnac) (name : String) (requestFilter : String)
    (verify : Bool) (timeout : Nat) : InitOutcome :=
  if pyStrLe dnac.version "1.2.8" then
    { printed := [],
      result := .ok { dnac := dnac, name := name,
                      respath := "/dna/intent/api/v1/network-device",
                      filter := requestFilter, verify := verify,
                      timeout := timeout } }
  else
    { printed := ["Unsupported version of DNAC: " ++ dnac.version],
      result := .raised (.attributeError "_NetworkDevice__respath") }

/-- An HTTP request as handed to requests.request. -/
structure HttpRequest where
  reqMethod : String
  url : String
  headers : List (String × String)
  verify : Bool
  timeout : Nat
deriving DecidableEq, Repr

/-- An HTTP response; the body is modelled as its parsed JSON value
(the claims only involve bodies that are valid JSON). -/
structure HttpResponse where
  status_code : Nat
  body : Json

/-- How a query method ends: a returned JSON value (the value found at
key response), a plain return None after printing a failure message, or
a raised exception. -/
inductive MethodResult where
  | value (v : Json)
  | retNone
  | raised (e : PyError)

/-- The instance state after the call, what the call printed, and how
it ended.  The four query methods never assign to any field of self, so
each returns state equal to the self it was called on. -/
structure MethodOutcome where
  state : NetworkDevice
  printed : List String
  result : MethodResult

/-- The request built by getAllDevices, networkdevice.py lines 120-126:
url = self.dnac.url + self.respath + self.filter, headers from
self.dnac.hdrs, together with self.verify and self.timeout. -/
def NetworkDevice.getAllDevicesRequest (self : NetworkDevice) : HttpRequest :=
  { reqMethod := "GET",
    url := self.dnac.url ++ self.respath ++ self.filter,
    headers := self.dnac.hdrs,
    verify := self.verify,
    timeout := self.timeout }

/-- The response handling every query method of networkdevice.py
repeats verbatim (lines 122-131, 159-168, 195-204, 231-240): issue the
GET, and if resp.status_code differs from requests.codes.ok (200),
print the failure message built from the status code and fall off the
end returning None; otherwise return json.loads(resp.text) subscripted
by the key response.  No branch assigns to any field of self. -/
def queryCall (self : NetworkDevice) (req : HttpRequest)
    (failMsg : Nat → String) (http : HttpRequest → HttpResponse) :
    MethodOutcome :=
  let resp := http req
  if resp.status_code ≠ 200 then
    { state := self,
      printed := [failMsg resp.status_code],
      result := .retNone }
  else
    match resp.body.subscript "response" with
    | .ok v => { state := self, printed := [], result := .value v }
    | .error e => { state := self, printed := [], result := .raised e }

/-- NetworkDevice.getAllDevices, networkdevice.py lines 100-131.
On a non-200 status it prints a failure message and falls off the end,
returning None; on 200 it returns json.loads(resp.text)[response-key]. -/
def NetworkDevice.getAllDevices (self : NetworkDevice)
    (http : HttpRequest → HttpResponse) : MethodOutcome :=
  queryCall self self.getAllDevicesRequest
    (fun s => "Failed to get all devices from DNAC: " ++ toString s) http

/-- The request built by getDeviceById, networkdevice.py lines 155-158:
url = self.dnac.url + self.respath + id, with no separator between the
resource path and the id; if self.filter is non-empty it is appended as
"/" + self.filter. -/
def NetworkDevice.getDeviceByIdRequest (self : NetworkDevice)
    (id : String) : HttpRequest :=
  let url := self.dnac.url ++ self.respath ++ id
  let url := if self.filter ≠ "" then url ++ "/" ++ self.filter else url
  { reqMethod := "GET",
    url := url,
    headers := self.dnac.hdrs,
    verify := self.verify,
    timeout := self.timeout }

/-- NetworkDevice.getDeviceById, networkdevice.py lines 135-168.
Same status handling as getAllDevices; the failure message reproduces
the source literally, including the missing space before from. -/
def NetworkDevice.getDeviceById (self : NetworkDevice) (id : String)
    (http : HttpRequest → HttpResponse) : MethodOutcome :=
  queryCall self (self.getDeviceByIdRequest id)
    (fun s => "Failed to get device " ++ id ++ "from DNAC: " ++ toString s)
    http

/-- The request built by getDeviceByName, networkdevice.py lines 192-194:
a local variable filter = "?hostname=" + name is used for the url and
the persisted self.filter field is not read and not written. -/
def NetworkDevice.getDeviceByNameRequest (self : NetworkDevice)
    (name : String) : HttpRequest :=
  let filter := "?hostname=" ++ name
  { reqMethod := "GET",
    url := self.dnac.url ++ self.respath ++ filter,
    headers := self.dnac.hdrs,
    verify := self.verify,
    timeout := self.timeout }

/-- NetworkDevice.getDeviceByName, networkdevice.py lines 172-204. -/
def NetworkDevice.getDeviceByName (self : NetworkDevice) (name : String)
    (http : HttpRequest → HttpResponse) : MethodOutcome :=
  queryCall self (self.getDeviceByNameRequest name)
    (fun s => "Failed to get " ++ name ++ " from DNAC: " ++ toString s)
    http

/-- The request built by getDeviceByIp, networkdevice.py lines 228-230:
filter = "?managementIpAddress=" + ip, url = base url + respath +
filter; the ip is passed through verbatim. -/
def NetworkDevice.getDeviceByIpRequest (self : NetworkDevice)
    (ip : String) : HttpRequest :=
  let filter := "?managementIpAddress=" ++ ip
  { reqMethod := "GET",
    url := self.dnac.url ++ self.respath ++ filter,
    headers := self.dnac.hdrs,
    verify := self.verify,
    timeout := self.timeout }

/-- NetworkDevice.getDeviceByIp, networkdevice.py lines 208-240. -/
def NetworkDevice.getDeviceByIp (self : NetworkDevice) (ip : String)
    (http : HttpRequest → HttpResponse) : MethodOutcome :=
  queryCall self (self.getDeviceByIpRequest ip)
    (fun s => "Failed to get " ++ ip ++ " from DNAC: " ++ toString s)
    http

/-- A concrete Dnac object with a supported version, used by witnesses
and counterexamples. -/
def dnac0 : Dnac :=
  { version := "1.2.8", url := "https://dnac",
    hdrs := [("X-Auth-Token", "token0")] }

/-- A concrete client instance used by witnesses and counterexamples:
the instance __init__ builds from dnac0. -/
def nd0 : NetworkDevice :=
  { dnac := dnac0,
    name := "network-device",
    respath := "/dna/intent/api/v1/network-device",
    filter := "",
    verify := false,
    timeout := 5 }

/-- A transport that answers every request with status 404 and an empty
JSON object body. -/
def http404 : HttpRequest → HttpResponse :=
  fun _ => { status_code := 404, body := .obj [] }

/-- A transport that answers every request with status 200 and the body
given as the empty JSON object. -/
def http200empty : HttpRequest → HttpResponse :=
  fun _ => { status_code := 200, body := .obj [] }

/-- A transport that answers every request with status 200 and a body
holding a two-record device listing under the response key. -/
def http200two : HttpRequest → HttpResponse :=
  fun _ =>
    { status_code := 200,
      body := .obj [("response", .arr [.str "r1", .str "r2"])] }

/-- No branch of the shared response handling assigns to self: the
returned state is the receiver. -/
theorem queryCall_state (self : NetworkDevice) (req : HttpRequest)
    (failMsg : Nat → String) (http : HttpRequest → HttpResponse) :
    (queryCall self req failMsg http).state = self := by
  by_cases h : (http req).status_code ≠ 200
  · simp [queryCall, h]
  · cases hs : (http req).body.subscript "response" <;>
      simp [queryCall, h, hs]

/-- On a non-200 response the shared handling prints the failure
message built from the status code and returns None. -/
theorem queryCall_non200 (self : NetworkDevice) (req : HttpRequest)
    (failMsg : Nat → String) (http : HttpRequest → HttpResponse)
    (h : (http req).status_code ≠ 200) :
    queryCall self req failMsg http =
      { state := self,
        printed := [failMsg (http req).status_code],
        result := .retNone } := by
  unfold queryCall
  simp [h]

/-- On a 200 response the shared handling returns the result of
subscripting the body by the key response: the found value, or the
raised lookup error. -/
theorem queryCall_200 (self : NetworkDevice) (req : HttpRequest)
    (failMsg : Nat → String) (http : HttpRequest → HttpResponse)
    (body : Json) (h : http req = { status_code := 200, body := body }) :
    queryCall self req failMsg http =
      match body.subscript "response" with
      | .ok v => { state := self, printed := [], result := .value v }
      | .error e => { state := self, printed := [], result := .raised e } := by
  unfold queryCall
  rw [h]
  simp

/-- The result of the shared handling depends only on the request and
the transport, not on the receiver or the failure message. -/
theorem queryCall_result_congr (s₁ s₂ : NetworkDevice) (req : HttpRequest)
    (m₁ m₂ : Nat → String) (http : HttpRequest → HttpResponse) :
    (queryCall s₁ req m₁ http).result = (queryCall s₂ req m₂ http).result := by
  by_cases h : (http req).status_code ≠ 200
  · simp [queryCall, h]
  · cases hs : (http req).body.subscript "response" <;>
      simp [queryCall, h, hs]

/-- Claim C5: for every version string v with v <= "1.2.8" under
lexicographic string comparison, construction succeeds and sets the
resourcePath of the client to exactly "/dna/intent/api/v1/network-device". -/
theorem C5_supported_version_sets_respath (dnac : Dnac)
    (name requestFilter : String) (verify : Bool) (timeout : Nat)
    (h : pyStrLe dnac.version "1.2.8" = true) :
    NetworkDevice.init dnac name requestFilter verify timeout =
      { printed := [],
        result := .ok { dnac := dnac, name := name,
                        respath := "/dna/intent/api/v1/network-device",
                        filter := requestFilter, verify := verify,
                        timeout := timeout } } := by
  simp [NetworkDevice.init, h]

/-- Witness for C5 at the concrete version "1.2.8". -/
theorem C5_supported_version_sets_respath_witness :
    pyStrLe dnac0.version "1.2.8" = true ∧
    NetworkDevice.init dnac0 "network-device" "" false 5 =
      { printed := [], result := .ok nd0 } :=
  ⟨by decide,
   C5_supported_version_sets_respath dnac0 "network-device" "" false 5
     (by decide)⟩

/-- Claim C2, behavior of the code at the failing input version "1.2.9":
__init__ prints the unsupported-version message and then raises
AttributeError at the read of the unset private field __respath on
line 94, instead of raising an UnsupportedVersionError. -/
theorem C2_unsupported_version_eval :
    NetworkDevice.init
        { version := "1.2.9", url := "https://dnac", hdrs := [] }
        "network-device" "" false 5 =
      { printed := ["Unsupported version of DNAC: 1.2.9"],
        result := .raised (.attributeError "_NetworkDevice__respath") } :=
  rfl

/-- Claim C3, behavior of the code at the failing input id "uuid-1":
line 155 builds url = self.dnac.url + self.respath + id with no "/"
between the resource path and the id, so the issued URL differs from
baseUrl + resourcePath + "/" + id. -/
theorem C3_byId_url_missing_separator_eval :
    (nd0.getDeviceByIdRequest "uuid-1").url =
      "https://dnac/dna/intent/api/v1/network-deviceuuid-1" ∧
    (nd0.getDeviceByIdRequest "uuid-1").url ≠
      nd0.dnac.url ++ nd0.respath ++ "/" ++ "uuid-1" :=
  ⟨rfl, by decide⟩

/-- Claim C1, counterexample: on a non-200 response (status 404),
getAllDevices prints a failure message and returns None; it does not
raise any error, so the caller receives a silent None result. -/
theorem C1_non200_returns_none_counterexample :
    (nd0.getAllDevices http404).printed =
      ["Failed to get all devices from DNAC: 404"] ∧
    (nd0.getAllDevices http404).result = .retNone :=
  ⟨rfl, rfl⟩

/-- Claim C1 as amended: for every non-200 response, each of the four
query methods prints a failure message containing the status code and
returns None; it never returns a record sequence and never raises. -/
theorem C1_non200_prints_and_returns_none (self : NetworkDevice)
    (id name ip : String) (http : HttpRequest → HttpResponse)
    (h1 : (http self.getAllDevicesRequest).status_code ≠ 200)
    (h2 : (http (self.getDeviceByIdRequest id)).status_code ≠ 200)
    (h3 : (http (self.getDeviceByNameRequest name)).status_code ≠ 200)
    (h4 : (http (self.getDeviceByIpRequest ip)).status_code ≠ 200) :
    ((self.getAllDevices http).result = .retNone ∧
     (self.getAllDevices http).printed =
       ["Failed to get all devices from DNAC: " ++
        toString (http self.getAllDevicesRequest).status_code]) ∧
    ((self.getDeviceById id http).result = .retNone ∧
     (self.getDeviceById id http).printed =
       ["Failed to get device " ++ id ++ "from DNAC: " ++
        toString (http (self.getDeviceByIdRequest id)).status_code]) ∧
    ((self.getDeviceByName name http).result = .retNone ∧
     (self.getDeviceByName name http).printed =
       ["Failed to get " ++ name ++ " from DNAC: " ++
        toString (http (self.getDeviceByNameRequest name)).status_code]) ∧
    ((self.getDeviceByIp ip http).result = .retNone ∧
     (self.getDeviceByIp ip http).printed =
       ["Failed to get " ++ ip ++ " from DNAC: " ++
        toString (http (self.getDeviceByIpRequest ip)).status_code]) := by
  have a := queryCall_non200 self self.getAllDevicesRequest
    (fun s => "Failed to get all devices from DNAC: " ++ toString s) http h1
  have b := queryCall_non200 self (self.getDeviceByIdRequest id)
    (fun s => "Failed to get device " ++ id ++ "from DNAC: " ++ toString s)
    http h2
  have c := queryCall_non200 self (self.getDeviceByNameRequest name)
    (fun s => "Failed to get " ++ name ++ " from DNAC: " ++ toString s)
    http h3
  have d := queryCall_non200 self (self.getDeviceByIpRequest ip)
    (fun s => "Failed to get " ++ ip ++ " from DNAC: " ++ toString s)
    http h4
  refine ⟨⟨?_, ?_⟩, ⟨?_, ?_⟩, ⟨?_, ?_⟩, ⟨?_, ?_⟩⟩ <;>
    simp [NetworkDevice.getAllDevices, NetworkDevice.getDeviceById,
          NetworkDevice.getDeviceByName, NetworkDevice.getDeviceByIp,
          a, b, c, d]

/-- Witness for the amended C1 at status 404 on every request. -/
theorem C1_non200_prints_and_returns_none_witness :
    ((http404 nd0.getAllDevicesRequest).status_code ≠ 200) ∧
    ((http404 (nd0.getDeviceByIdRequest "uuid-1")).status_code ≠ 200) ∧
    ((http404 (nd0.getDeviceByNameRequest "host1")).status_code ≠ 200) ∧
    ((http404 (nd0.getDeviceByIpRequest "10.0.0.5")).status_code ≠ 200) ∧
    (nd0.getAllDevices http404).result = .retNone ∧
    (nd0.getDeviceById "uuid-1" http404).result = .retNone ∧
    (nd0.getDeviceByName "host1" http404).result = .retNone ∧
    (nd0.getDeviceByIp "10.0.0.5" http404).result = .retNone :=
  ⟨by decide, by decide, by decide, by decide,
   (C1_non200_prints_and_returns_none nd0 "uuid-1" "host1" "10.0.0.5"
     http404 (by decide) (by decide) (by decide) (by decide)).1.1,
   (C1_non200_prints_and_returns_none nd0 "uuid-1" "host1" "10.0.0.5"
     http404 (by decide) (by decide) (by decide) (by decide)).2.1.1,
   (C1_non200_prints_and_returns_none nd0 "uuid-1" "host1" "10.0.0.5"
     http404 (by decide) (by decide) (by decide) (by decide)).2.2.1.1,
   (C1_non200_prints_and_returns_none nd0 "uuid-1" "host1" "10.0.0.5"
     http404 (by decide) (by decide) (by decide) (by decide)).2.2.2.1⟩

/-- Claim C4: for every 200 response whose body is the JSON object with
the single key response holding the list of records rs, getAllDevices
returns exactly rs, in order, with no element filtered, reordered or
transformed. -/
theorem C4_getAllDevices_returns_response_list (self : NetworkDevice)
    (rs : List Json) (http : HttpRequest → HttpResponse)
    (h : http self.getAllDevicesRequest =
      { status_code := 200, body := .obj [("response", .arr rs)] }) :
    (self.getAllDevices http).result = .value (.arr rs) := by
  have a := queryCall_200 self self.getAllDevicesRequest
    (fun s => "Failed to get all devices from DNAC: " ++ toString s) http
    (.obj [("response", .arr rs)]) h
  simp [NetworkDevice.getAllDevices, a, Json.subscript, lookupField]

/-- Witness for C4 at a concrete two-record response. -/
theorem C4_getAllDevices_returns_response_list_witness :
    http200two nd0.getAllDevicesRequest =
      { status_code := 200,
        body := .obj [("response", .arr [.str "r1", .str "r2"])] } ∧
    (nd0.getAllDevices http200two).result =
      .value (.arr [.str "r1", .str "r2"]) :=
  ⟨rfl,
   C4_getAllDevices_returns_response_list nd0 [.str "r1", .str "r2"]
     http200two rfl⟩

/-- Claim C6: for every 200 response whose body is the empty JSON
object, each of the four query methods raises the key-lookup error for
the missing key response (the failure the spec calls
MalformedResponseError) rather than returning a value. -/
theorem C6_missing_response_key_raises (self : NetworkDevice)
    (id name ip : String) (http : HttpRequest → HttpResponse)
    (h1 : http self.getAllDevicesRequest =
      { status_code := 200, body := .obj [] })
    (h2 : http (self.getDeviceByIdRequest id) =
      { status_code := 200, body := .obj [] })
    (h3 : http (self.getDeviceByNameRequest name) =
      { status_code := 200, body := .obj [] })
    (h4 : http (self.getDeviceByIpRequest ip) =
      { status_code := 200, body := .obj [] }) :
    (self.getAllDevices http).result = .raised (.keyError "response") ∧
    (self.getDeviceById id http).result = .raised (.keyError "response") ∧
    (self.getDeviceByName name http).result = .raised (.keyError "response") ∧
    (self.getDeviceByIp ip http).result = .raised (.keyError "response") := by
  have a := queryCall_200 self self.getAllDevicesRequest
    (fun s => "Failed to get all devices from DNAC: " ++ toString s) http
    (.obj []) h1
  have b := queryCall_200 self (self.getDeviceByIdRequest id)
    (fun s => "Failed to get device " ++ id ++ "from DNAC: " ++ toString s)
    http (.obj []) h2
  have c := queryCall_200 self (self.getDeviceByNameRequest name)
    (fun s => "Failed to get " ++ name ++ " from DNAC: " ++ toString s)
    http (.obj []) h3
  have d := queryCall_200 self (self.getDeviceByIpRequest ip)
    (fun s => "Failed to get " ++ ip ++ " from DNAC: " ++ toString s)
    http (.obj []) h4
  refine ⟨?_, ?_, ?_, ?_⟩ <;>
    simp [NetworkDevice.getAllDevices, NetworkDevice.getDeviceById,
          NetworkDevice.getDeviceByName, NetworkDevice.getDeviceByIp,
          a, b, c, d, Json.subscript, lookupField]

/-- Witness for C6 at concrete inputs against the empty-object 200
transport. -/
theorem C6_missing_response_key_raises_witness :
    http200empty nd0.getAllDevicesRequest =
      { status_code := 200, body := .obj [] } ∧
    http200empty (nd0.getDeviceByIdRequest "uuid-1") =
      { status_code := 200, body := .obj [] } ∧
    http200empty (nd0.getDeviceByNameRequest "host1") =
      { status_code := 200, body := .obj [] } ∧
    http200empty (nd0.getDeviceByIpRequest "10.0.0.5") =
      { status_code := 200, body := .obj [] } ∧
    (nd0.getAllDevices http200empty).result =
      .raised (.keyError "response") ∧
    (nd0.getDeviceById "uuid-1" http200empty).result =
      .raised (.keyError "response") ∧
    (nd0.getDeviceByName "host1" http200empty).result =
      .raised (.keyError "response") ∧
    (nd0.getDeviceByIp "10.0.0.5" http200empty).result =
      .raised (.keyError "response") :=
  ⟨rfl, rfl, rfl, rfl,
   (C6_missing_response_key_raises nd0 "uuid-1" "host1" "10.0.0.5"
     http200empty rfl rfl rfl rfl).1,
   (C6_missing_response_key_raises nd0 "uuid-1" "host1" "10.0.0.5"
     http200empty rfl rfl rfl rfl).2.1,
   (C6_missing_response_key_raises nd0 "uuid-1" "host1" "10.0.0.5"
     http200empty rfl rfl rfl rfl).2.2.1,
   (C6_missing_response_key_raises nd0 "uuid-1" "host1" "10.0.0.5"
     http200empty rfl rfl rfl rfl).2.2.2⟩

/-- Claim C7: for every non-empty hostname n, getDeviceByName issues a
GET whose URL is baseUrl + resourcePath + "?hostname=" + n, and the
persisted queryFilter field of the instance is left unchanged. -/
theorem C7_byName_url_and_filter_unchanged (self : NetworkDevice)
    (n : String) (http : HttpRequest → HttpResponse) (h : n ≠ "") :
    (self.getDeviceByNameRequest n).reqMethod = "GET" ∧
    (self.getDeviceByNameRequest n).url =
      self.dnac.url ++ self.respath ++ ("?hostname=" ++ n) ∧
    (self.getDeviceByName n http).state.filter = self.filter := by
  refine ⟨rfl, rfl, ?_⟩
  simp [NetworkDevice.getDeviceByName, queryCall_state]

/-- Witness for C7 at the concrete hostname host.example.com. -/
theorem C7_byName_url_and_filter_unchanged_witness :
    ("host.example.com" : String) ≠ "" ∧
    ((nd0.getDeviceByNameRequest "host.example.com").reqMethod = "GET" ∧
     (nd0.getDeviceByNameRequest "host.example.com").url =
       nd0.dnac.url ++ nd0.respath ++ ("?hostname=" ++ "host.example.com") ∧
     (nd0.getDeviceByName "host.example.com" http404).state.filter =
       nd0.filter) :=
  ⟨by decide,
   C7_byName_url_and_filter_unchanged nd0 "host.example.com" http404
     (by decide)⟩

/-- Claim C8: for every non-empty ip, getDeviceByIp issues a GET whose
URL is baseUrl + resourcePath + "?managementIpAddress=" + ip, the ip
passed through verbatim with no validation or transformation. -/
theorem C8_byIp_url (self : NetworkDevice) (ip : String)
    (h : ip ≠ "") :
    (self.getDeviceByIpRequest ip).reqMethod = "GET" ∧
    (self.getDeviceByIpRequest ip).url =
      self.dnac.url ++ self.respath ++ ("?managementIpAddress=" ++ ip) :=
  ⟨rfl, rfl⟩

/-- Witness for C8 at the concrete ip 10.0.0.5. -/
theorem C8_byIp_url_witness :
    ("10.0.0.5" : String) ≠ "" ∧
    ((nd0.getDeviceByIpRequest "10.0.0.5").reqMethod = "GET" ∧
     (nd0.getDeviceByIpRequest "10.0.0.5").url =
       nd0.dnac.url ++ nd0.respath ++ ("?managementIpAddress=" ++ "10.0.0.5")) :=
  ⟨by decide, C8_byIp_url nd0 "10.0.0.5" (by decide)⟩

/-- Claim C9: getAllDevices mutates no field of the client, so the call
is repeatable: a second call on the resulting state with the same
transport is the same call and produces the identical outcome. -/
theorem C9_getAllDevices_no_mutation_idempotent (self : NetworkDevice)
    (http : HttpRequest → HttpResponse) :
    (self.getAllDevices http).state = self ∧
    ((self.getAllDevices http).state).getAllDevices http =
      self.getAllDevices http := by
  have h : (self.getAllDevices http).state = self := by
    simp [NetworkDevice.getAllDevices, queryCall_state]
  exact ⟨h, by rw [h]⟩

/-- Claim C10: getDeviceByName n is observationally equivalent to
setting the queryFilter field to "?hostname=" + n and calling
getAllDevices: the built requests (URL, headers, verify, timeout) are
equal, the results agree for every transport, and getDeviceByName
leaves the persisted queryFilter untouched. -/
theorem C10_byName_equiv_setFilter_getAll (self : NetworkDevice)
    (n : String) (http : HttpRequest → HttpResponse) :
    self.getDeviceByNameRequest n =
      NetworkDevice.getAllDevicesRequest
        { self with filter := "?hostname=" ++ n } ∧
    (self.getDeviceByName n http).result =
      (NetworkDevice.getAllDevices { self with filter := "?hostname=" ++ n }
        http).result ∧
    (self.getDeviceByName n http).state.filter = self.filter := by
  have hreq : self.getDeviceByNameRequest n =
      NetworkDevice.getAllDevicesRequest
        { self with filter := "?hostname=" ++ n } := rfl
  refine ⟨hreq, ?_, ?_⟩
  · simp only [NetworkDevice.getDeviceByName, NetworkDevice.getAllDevices]
    rw [hreq]
    exact queryCall_result_congr _ _ _ _ _ _
  · simp [NetworkDevice.getDeviceByName, queryCall_state]
